import Mathlib

/-!
Verification of the libetrv device session layer (`src/libetrv/device.py`,
`src/libetrv/cli.py`) against its natural-language specification.

The Python code is shallowly embedded: the session object becomes an explicit
state record, the BLE transport becomes a trace of environment-chosen attempt
outcomes, Python `bytes` become `List Nat`, Python floats in the temperature
codec become `ℚ` (the codec only multiplies/truncates by powers of two, which
is exact in binary floating point for the values at stake), and raised Python
exceptions become `Except`/explicit result constructors.
-/

namespace LibEtrv

/-! ### Characteristic handles (class constants of `eTRVDevice`) -/

def BATTERY_LEVEL_R : Nat := 0x0010

def PIN_W : Nat := 0x0024

def SETTINGS_RW : Nat := 0x002a

def TEMPERATURE_RW : Nat := 0x002d

def DEVICE_NAME_RW : Nat := 0x0030

def TIME_RW : Nat := 0x0036

def SECRET_R : Nat := 0x003f

/-! ### Python-level error values -/

/-- Kinds of Python exceptions that the embedded code can raise.
`typeError` models `TypeError` (e.g. calling a namedtuple constructor without
its required arguments), `attributeError` models `AttributeError`
(assigning a field of an immutable namedtuple), and `pinRejected` models the
transport error raised by `writeCharacteristic` when the device answers the
PIN write with an error response — an error that is NOT
`btle.BTLEDisconnectError` and therefore is not caught by `connect`. -/
inductive PyErr where
  | typeError
  | attributeError
  | pinRejected
deriving DecidableEq

/-! ### Scan (`eTRVDevice.scan`) -/

/-- One advertisement entry as returned by `dev.getScanData()`:
the `(adtype, desc, value)` triple. -/
structure AdEntry where
  adtype : Nat
  desc : String
  value : String
deriving DecidableEq

/-- One device seen by `btle.Scanner().scan(timeout)`: its address, its
reported signal strength (RSSI) and its advertisement entries. -/
structure ScanEntry where
  addr : String
  rssi : Int
  scanData : List AdEntry
deriving DecidableEq

/-- Python `value.endswith(post)`: `post` is a suffix of `value`. Embedded as
a suffix test on the character sequences of the two strings. -/
def pyEndsWith (v post : String) : Bool :=
  List.isSuffixOf post.data v.data

/-- The filter condition of the inner loop of `eTRVDevice.scan`:
`adtype == 9 and value.endswith(';eTRV')`. -/
def matchesMarker (e : AdEntry) : Bool :=
  e.adtype == 9 && pyEndsWith e.value (";eTRV")

/-- Devices yielded for a single scanner entry `dev`: the inner
`for (adtype, desc, value) in scan_data` loop of `eTRVDevice.scan`,
yielding `dev` once per matching advertisement entry. -/
def scanYields (d : ScanEntry) : List ScanEntry :=
  d.scanData.flatMap (fun e => if matchesMarker e then [d] else [])

/-- `eTRVDevice.scan`, given the list of devices the scanner observed during
the window: the outer `for dev in devices` loop. -/
def scan (devices : List ScanEntry) : List ScanEntry :=
  devices.flatMap scanYields

/-! ### Session state (`eTRVDevice.__init__`, `is_connected`) -/

/-- The mutable state of an `eTRVDevice` instance: `address`, `secret`,
`pin` and `ble_device` (the live link, `none` when disconnected; an open
link is identified by a `Nat` token). -/
structure DeviceState where
  address : String
  secret : Option (List Nat)
  pin : List Nat
  ble_device : Option Nat
deriving DecidableEq

/-- `eTRVDevice.__init__(address, secret=None, pin=None)`:
`self.pin = b'0000' if pin is None else pin`; `b'0000'` is the four bytes
`[48, 48, 48, 48]`; `self.ble_device = None`. -/
def init (address : String) (secret : Option (List Nat)) (pin : Option (List Nat)) :
    DeviceState :=
  { address := address
    secret := secret
    pin := match pin with
      | none => [48, 48, 48, 48]
      | some p => p
    ble_device := none }

/-- `eTRVDevice.is_connected`: `self.ble_device is not None`. -/
def is_connected (s : DeviceState) : Bool :=
  s.ble_device.isSome

/-! ### Connect / disconnect (`eTRVDevice.connect`, `disconnect`, `send_pin`) -/

/-- Observable side effects of the session code on the transport and clock. -/
inductive Event where
  | linkOpen (link : Nat)
  | pinWrite (handle : Nat) (pin : List Nat)
  | sleepMs (ms : Nat)
  | linkClose (link : Nat)
deriving DecidableEq

/-- `eTRVDevice.send_pin`: `self.ble_device.writeCharacteristic(eTRVDevice.PIN_W,
self.pin, True)` — a write of the stored PIN, as is, to handle `PIN_W`. -/
def send_pin (s : DeviceState) : Event :=
  Event.pinWrite PIN_W s.pin

/-- Outcome of the PIN write inside one connect attempt, as decided by the
device: `accepted` (write succeeds), `disconnected` (the write raises
`btle.BTLEDisconnectError`), `rejected` (the write raises any other error,
i.e. the device answers with an error response rejecting the PIN). -/
inductive PinOutcome where
  | accepted
  | disconnected
  | rejected
deriving DecidableEq

/-- Environment behaviour for one iteration of the `while True` loop of
`connect`: `openResult = none` means `btle.Peripheral(self.address)` raises
`btle.BTLEDisconnectError`; `openResult = some link` means the link opens;
`pinResult` is consulted only when the link opened and a PIN is sent. -/
structure Attempt where
  openResult : Option Nat
  pinResult : PinOutcome
deriving DecidableEq

/-- Result of `connect`: it returned normally (`connected`), it let a Python
exception escape (`raised`), or the supplied environment trace ended while
the retry loop was still going (`pending` — the Python loop would simply
keep retrying). -/
inductive ConnectResult where
  | connected
  | raised (e : PyErr)
  | pending
deriving DecidableEq

/-- The `while True` retry loop of `eTRVDevice.connect`, one trace entry per
iteration. Faithful to the source: `self.ble_device` is assigned before
`send_pin` runs; only `btle.BTLEDisconnectError` is caught, answered by
`sleep(0.1)` (100 ms) and another iteration; a successful iteration hits
`break`; any other exception from `send_pin` escapes the loop. -/
def connectLoop (s : DeviceState) (sendPin : Bool) :
    List Attempt → DeviceState × List Event × ConnectResult
  | [] => (s, [], ConnectResult.pending)
  | a :: rest =>
    match a.openResult with
    | none =>
      let r := connectLoop s sendPin rest
      (r.1, Event.sleepMs 100 :: r.2.1, r.2.2)
    | some link =>
      let s1 : DeviceState := { s with ble_device := some link }
      if sendPin then
        match a.pinResult with
        | PinOutcome.accepted =>
          (s1, [Event.linkOpen link, send_pin s1], ConnectResult.connected)
        | PinOutcome.disconnected =>
          let r := connectLoop s1 sendPin rest
          (r.1, Event.linkOpen link :: send_pin s1 :: Event.sleepMs 100 :: r.2.1, r.2.2)
        | PinOutcome.rejected =>
          (s1, [Event.linkOpen link, send_pin s1], ConnectResult.raised PyErr.pinRejected)
      else
        (s1, [Event.linkOpen link], ConnectResult.connected)

/-- `eTRVDevice.connect(send_pin=True)`: early return when already connected,
otherwise the retry loop. Returns the final state, the emitted transport and
clock events, and how the call ended. -/
def connect (s : DeviceState) (sendPin : Bool) (trace : List Attempt) :
    DeviceState × List Event × ConnectResult :=
  if is_connected s then (s, [], ConnectResult.connected)
  else connectLoop s sendPin trace

/-- `eTRVDevice.disconnect`: `if self.ble_device is not None:
self.ble_device.disconnect(); self.ble_device = None`. -/
def disconnect (s : DeviceState) : DeviceState × List Event :=
  match s.ble_device with
  | some link => ({ s with ble_device := none }, [Event.linkClose link])
  | none => (s, [])

/-! ### Temperature codec
(`eTRVDevice.temperature`, `set_point_temperature` setter) -/

/-- Python `int()` applied to a numeric value: truncation toward zero.
Temperatures are modelled as `ℚ`; the codec arithmetic (`* 2`, `* .5`) is
exact on `ℚ` just as it is on the binary floats of the source for all
half-degree values. -/
def pyInt (q : ℚ) : Int :=
  if q < 0 then -(Rat.floor (-q)) else Rat.floor q

/-- The two raw wire fields of `TemperatureStruct`: signed half-degree
integers, zero-initialised as in `TemperatureStruct()`. -/
structure TemperatureStruct where
  room_temperature : Int := 0
  set_point_temperature : Int := 0
deriving DecidableEq

/-- The `set_point_temperature` setter body: `temp = TemperatureStruct();
temp.set_point_temperature = int(value*2); return temp`. -/
def set_point_temperature_setter (value : ℚ) : TemperatureStruct :=
  { set_point_temperature := pyInt (value * 2) }

/-- The `eTRVDevice.temperature` read conversion: `room_temp =
data.room_temperature * .5; set_temp = data.set_point_temperature * .5;
return room_temp, set_temp`. -/
def temperature_read (data : TemperatureStruct) : ℚ × ℚ :=
  ((data.room_temperature : ℚ) * (1 / 2), (data.set_point_temperature : ℚ) * (1 / 2))

/-! ### Settings read (`eTRVDevice.settings`) -/

/-- The decoded raw fields of `SettingsStruct` that `eTRVDevice.settings`
reads: half-degree temperature integers, the raw schedule-mode value and
epoch-second timestamps. -/
structure SettingsStruct where
  frost_protection_temperature : Int
  schedule_mode : Nat
  vacation_temperature : Int
  vacation_from : Int
  vacation_to : Int
deriving DecidableEq

/-- The domain record named by the spec: the five fields of the `Settings`
namedtuple of `device.py`, in human units. Datetimes
(`datetime.utcfromtimestamp`) are represented by their UTC epoch seconds. -/
structure Settings where
  frost_protection_temperature : ℚ
  schedule_mode : Nat
  vacation_temperature : ℚ
  vacation_from : Int
  vacation_to : Int
deriving DecidableEq

/-- The field names of the `Settings` namedtuple, as declared in
`device.py`. -/
def settingsFields : List String :=
  ["frost_protection_temperature", "schedule_mode", "vacation_temperature",
   "vacation_from", "vacation_to"]

/-- Python semantics of calling a namedtuple constructor with positional
arguments: unless one argument is supplied per field, the call raises
`TypeError` (namedtuple fields have no defaults here). -/
def namedtupleCall (fields : List String) (args : List Int) :
    Except PyErr (List Int) :=
  if args.length = fields.length then Except.ok args
  else Except.error PyErr.typeError

/-- Python semantics of assigning an attribute of a namedtuple instance:
namedtuples are immutable, so the assignment raises `AttributeError`. -/
def namedtupleSetAttr : Except PyErr Unit :=
  Except.error PyErr.attributeError

/-- The body of `eTRVDevice.settings` as written: `ret = Settings()` calls the
five-field namedtuple constructor with no arguments (raising `TypeError`);
were that to succeed, the next statement `ret.frost_protection_temperature =
...` would assign an attribute of the immutable namedtuple (raising
`AttributeError`). Either way no `Settings` value is produced. -/
def settings_read (_data : SettingsStruct) : Except PyErr Settings :=
  match namedtupleCall settingsFields [] with
  | Except.error e => Except.error e
  | Except.ok _ =>
    match namedtupleSetAttr with
    | Except.error e => Except.error e
    | Except.ok _ => Except.error PyErr.attributeError

/-- Modelled from the spec: the `Settings` record the settings read is
specified to return (frost-protection and vacation temperatures at
`raw * 0.5` °C, the decoded schedule mode, and the two vacation timestamps
converted from UTC epoch seconds). The field conversions mirror the
right-hand sides of the assignments in `eTRVDevice.settings`. -/
def settings_intended (data : SettingsStruct) : Settings :=
  { frost_protection_temperature := (data.frost_protection_temperature : ℚ) * (1 / 2)
    schedule_mode := data.schedule_mode
    vacation_temperature := (data.vacation_temperature : ℚ) * (1 / 2)
    vacation_from := data.vacation_from
    vacation_to := data.vacation_to }

/-! ### Concrete fixtures used by witnesses -/

/-- A scanner entry advertising an eTRV device name. -/
def devA : ScanEntry :=
  { addr := "00:04:2f:06:24:d1"
    rssi := -63
    scanData := [{ adtype := 9, desc := "Complete Local Name", value := "0;0.48;eTRV" }] }

/-- A scanner entry for an unrelated device. -/
def devB : ScanEntry :=
  { addr := "5c:f3:70:81:01:02"
    rssi := -40
    scanData := [{ adtype := 1, desc := "Flags", value := "06" },
                 { adtype := 9, desc := "Complete Local Name", value := "Phone" }] }

/-- A session state with an open link, for the disconnect witness. -/
def sOpen : DeviceState :=
  { address := "00:04:2f:06:24:d1"
    secret := none
    pin := [48, 48, 48, 48]
    ble_device := some 5 }

/-! ## Helper lemmas -/

/-- The `Int.floor` of a rational is computed by `Rat.floor`. -/
lemma rat_floor_eq_int_floor (q : ℚ) : Rat.floor q = ⌊q⌋ := rfl

/-- Python `int()` is the identity on integer-valued rationals. -/
lemma pyInt_intCast (k : ℤ) : pyInt ((k : ℚ)) = k := by
  unfold pyInt
  split
  · rw [rat_floor_eq_int_floor, (Int.cast_neg k).symm, Int.floor_intCast]
    ring
  · rw [rat_floor_eq_int_floor, Int.floor_intCast]

/-- Membership in the per-device yield list of `scan`. -/
lemma mem_scanYields {d dev : ScanEntry} :
    dev ∈ scanYields d ↔ dev = d ∧ ∃ e ∈ d.scanData, matchesMarker e = true := by
  unfold scanYields
  rw [List.mem_flatMap]
  constructor
  · rintro ⟨e, he, hmem⟩
    by_cases h : matchesMarker e
    · simp only [h, if_true, List.mem_singleton] at hmem
      exact ⟨hmem, e, he, h⟩
    · simp [h] at hmem
  · rintro ⟨rfl, e, he, h⟩
    exact ⟨e, he, by simp [h]⟩

/-- The retry loop, on a trace of `n` failed link opens followed by one fully
successful attempt: `n` fixed 100 ms sleeps, then the link open and the PIN
write, ending connected. -/
lemma connectLoop_openFail_replicate (s : DeviceState) (link : Nat) (n : Nat) :
    connectLoop s true
        (List.replicate n { openResult := none, pinResult := PinOutcome.accepted } ++
          [{ openResult := some link, pinResult := PinOutcome.accepted }]) =
      ({ s with ble_device := some link },
        List.replicate n (Event.sleepMs 100) ++
          [Event.linkOpen link, Event.pinWrite PIN_W s.pin],
        ConnectResult.connected) := by
  induction n with
  | zero => simp [connectLoop, send_pin]
  | succ m ih =>
    rw [List.replicate_succ, List.cons_append, List.replicate_succ, List.cons_append]
    simp only [connectLoop, ih]

/-! ## Claims -/

/-- Claim C1: if `connect(send_pin=True)` opens the link and the device
rejects the PIN write (the write raises an error that is not the transient
`BTLEDisconnectError`), the call ends by raising that fatal error, after
exactly one link open and one PIN write, with no sleep and without consulting
the rest of the trace: the PIN write is not retried. -/
theorem connect_pin_rejection_not_retried (s : DeviceState) (link : Nat)
    (rest : List Attempt) (h : is_connected s = false) :
    connect s true ({ openResult := some link, pinResult := PinOutcome.rejected } :: rest) =
      ({ s with ble_device := some link },
        [Event.linkOpen link, Event.pinWrite PIN_W s.pin],
        ConnectResult.raised PyErr.pinRejected) := by
  simp [connect, h, connectLoop, send_pin]

/-- Witness for C1: a fresh device whose first attempt has the PIN rejected
raises immediately, even though a second, successful attempt was available. -/
theorem connect_pin_rejection_not_retried_witness :
    connect (init ("AA:BB") none none) true
        [{ openResult := some 3, pinResult := PinOutcome.rejected },
         { openResult := some 4, pinResult := PinOutcome.accepted }] =
      ({ init ("AA:BB") none none with ble_device := some 3 },
        [Event.linkOpen 3, Event.pinWrite PIN_W [48, 48, 48, 48]],
        ConnectResult.raised PyErr.pinRejected) := by
  have h := connect_pin_rejection_not_retried (init ("AA:BB") none none) 3
      [{ openResult := some 4, pinResult := PinOutcome.accepted }] rfl
  simpa [init] using h

/-- Claim C2: on a trace of `n` transient link-open failures followed by a
successful attempt, `connect` sleeps a fixed 100 ms after each failure,
ends connected with the link established, and surfaces no failure to the
caller. -/
theorem connect_transient_retry_eventually_connects (s : DeviceState) (link : Nat)
    (n : Nat) (h : is_connected s = false) :
    connect s true
        (List.replicate n { openResult := none, pinResult := PinOutcome.accepted } ++
          [{ openResult := some link, pinResult := PinOutcome.accepted }]) =
      ({ s with ble_device := some link },
        List.replicate n (Event.sleepMs 100) ++
          [Event.linkOpen link, Event.pinWrite PIN_W s.pin],
        ConnectResult.connected) := by
  simp only [connect, h, Bool.false_eq_true, if_false]
  exact connectLoop_openFail_replicate s link n

/-- Witness for C2: two failed link opens, then success — the call connects
after two 100 ms waits. -/
theorem connect_transient_retry_witness :
    connect (init ("CC:DD") none none) true
        (List.replicate 2 { openResult := none, pinResult := PinOutcome.accepted } ++
          [{ openResult := some 7, pinResult := PinOutcome.accepted }]) =
      ({ init ("CC:DD") none none with ble_device := some 7 },
        List.replicate 2 (Event.sleepMs 100) ++
          [Event.linkOpen 7, Event.pinWrite PIN_W [48, 48, 48, 48]],
        ConnectResult.connected) := by
  have h := connect_transient_retry_eventually_connects (init ("CC:DD") none none) 7 2 rfl
  simpa [init] using h

/-- Claim C3: the set-point setter stores `int(value*2)` in the raw field —
truncation toward zero, not rounding to nearest: writing 21.3 stores raw 42
(while rounding would give 43), and for nonnegative `v` the stored raw value
is the greatest integer not exceeding `v*2`. -/
theorem set_point_setter_truncates :
    (set_point_temperature_setter (213 / 10)).set_point_temperature = 42 ∧
    (set_point_temperature_setter (213 / 10)).set_point_temperature ≠
      round ((213 / 10 : ℚ) * 2) ∧
    ∀ v : ℚ, 0 ≤ v →
      (set_point_temperature_setter v).set_point_temperature = pyInt (v * 2) ∧
      ((set_point_temperature_setter v).set_point_temperature : ℚ) ≤ v * 2 ∧
      v * 2 < ((set_point_temperature_setter v).set_point_temperature : ℚ) + 1 := by
  have h42 : (set_point_temperature_setter (213 / 10)).set_point_temperature = 42 := by
    show pyInt ((213 / 10 : ℚ) * 2) = 42
    unfold pyInt
    rw [if_neg (by norm_num), rat_floor_eq_int_floor]
    norm_num
  refine ⟨h42, ?_, ?_⟩
  · rw [h42]
    norm_num [round_eq]
  · intro v hv
    have h2 : ¬ (v * 2 < 0) := not_lt.mpr (by nlinarith)
    refine ⟨rfl, ?_, ?_⟩
    · show (pyInt (v * 2) : ℚ) ≤ v * 2
      unfold pyInt
      rw [if_neg h2, rat_floor_eq_int_floor]
      exact Int.floor_le (v * 2)
    · show v * 2 < (pyInt (v * 2) : ℚ) + 1
      unfold pyInt
      rw [if_neg h2, rat_floor_eq_int_floor]
      exact_mod_cast Int.lt_floor_add_one (v * 2)

/-- Witness for C3: at `v = 3/2` the stored raw value is `int(v*2)` and is
bounded by `v*2`. -/
theorem set_point_setter_truncates_witness :
    (set_point_temperature_setter (3 / 2)).set_point_temperature = pyInt ((3 / 2 : ℚ) * 2) ∧
    ((set_point_temperature_setter (3 / 2)).set_point_temperature : ℚ) ≤ (3 / 2 : ℚ) * 2 := by
  have h := set_point_setter_truncates.2.2 (3 / 2) (by norm_num)
  exact ⟨h.1, h.2.1⟩

/-- Claim C4: the temperature codec round-trips: for every `v` in
[−50, 50] °C that is an exact multiple of 0.5 (i.e. `v = k/2` for an
integer `k`), writing `v` through the set-point setter and decoding the
stored raw field through the temperature read yields exactly `v`. -/
theorem temperature_codec_round_trip (v : ℚ) (k : ℤ)
    (hk : v = (k : ℚ) / 2) (h1 : -50 ≤ v) (h2 : v ≤ 50) :
    (temperature_read (set_point_temperature_setter v)).2 = v := by
  subst hk
  simp only [set_point_temperature_setter, temperature_read]
  rw [show ((k : ℚ) / 2) * 2 = (k : ℚ) by ring, pyInt_intCast]
  ring

/-- Witness for C4: the round trip at `v = 21.5 = 43/2`. -/
theorem temperature_codec_round_trip_witness :
    (temperature_read (set_point_temperature_setter (43 / 2))).2 = 43 / 2 :=
  temperature_codec_round_trip (43 / 2) 43 (by norm_num) (by norm_num) (by norm_num)

/-- Claim C5: the temperature read converts both raw wire fields by
multiplying the signed half-degree integer by 0.5, returning the pair
(room temperature, set-point temperature); decoding raw value 42 yields
exactly 21.0 °C. -/
theorem temperature_read_halves_raw :
    (∀ d : TemperatureStruct,
        temperature_read d =
          ((d.room_temperature : ℚ) * (1 / 2), (d.set_point_temperature : ℚ) * (1 / 2))) ∧
    temperature_read { room_temperature := 42, set_point_temperature := 42 } = (21, 21) := by
  refine ⟨fun d => rfl, ?_⟩
  simp only [temperature_read]
  norm_num

/-- Claim C6 (code bug): the settings read can never return the specified
`Settings` record — its first statement calls the five-field `Settings`
namedtuple constructor with no arguments, which raises `TypeError` for every
well-formed decoded payload (and the subsequent attribute assignments on the
immutable namedtuple could only raise as well), so it never produces the
fully populated record the specification describes. -/
theorem settings_read_always_raises (data : SettingsStruct) :
    settings_read data = Except.error PyErr.typeError ∧
    settings_read data ≠ Except.ok (settings_intended data) := by
  refine ⟨rfl, fun h => ?_⟩
  exact Except.noConfusion
    ((rfl : settings_read data = Except.error PyErr.typeError).symm.trans h)

/-- Witness for C6: the read raises `TypeError` on a concrete payload
(frost 17 °C, mode 0, vacation 15 °C, vacation window [0, 3600]). -/
theorem settings_read_always_raises_witness :
    settings_read
        { frost_protection_temperature := 34, schedule_mode := 0,
          vacation_temperature := 30, vacation_from := 0, vacation_to := 3600 } =
      Except.error PyErr.typeError :=
  (settings_read_always_raises
    { frost_protection_temperature := 34, schedule_mode := 0,
      vacation_temperature := 30, vacation_from := 0, vacation_to := 3600 }).1

/-- Claim C7: calling `connect` on a session whose link is already
established is a no-op: it returns at once with the state unchanged and no
transport event — no link open, no PIN write, no sleep. -/
theorem connect_already_connected_noop (s : DeviceState) (sendPin : Bool)
    (trace : List Attempt) (h : is_connected s = true) :
    connect s sendPin trace = (s, [], ConnectResult.connected) := by
  simp [connect, h]

/-- Witness for C7: calling `connect` on the open-link fixture changes
nothing and emits nothing. -/
theorem connect_already_connected_noop_witness :
    connect sOpen false [{ openResult := some 9, pinResult := PinOutcome.accepted }] =
      (sOpen, [], ConnectResult.connected) :=
  connect_already_connected_noop sOpen false
    [{ openResult := some 9, pinResult := PinOutcome.accepted }] rfl

/-- Claim C8: `disconnect` is idempotent: after it, the session is
disconnected; a second call changes nothing and emits nothing; the other
session fields are untouched; and when a link was open, exactly that link is
torn down. -/
theorem disconnect_idempotent (s : DeviceState) :
    is_connected (disconnect s).1 = false ∧
    disconnect (disconnect s).1 = ((disconnect s).1, ([] : List Event)) ∧
    (disconnect s).1.address = s.address ∧
    (disconnect s).1.secret = s.secret ∧
    (disconnect s).1.pin = s.pin ∧
    ∀ link, s.ble_device = some link → (disconnect s).2 = [Event.linkClose link] := by
  cases hb : s.ble_device with
  | none => simp [disconnect, hb, is_connected]
  | some l => simp [disconnect, hb, is_connected]

/-- Witness for C8: on the open-link fixture, `disconnect` closes link 5,
leaves a disconnected state, and a second call is a no-op. -/
theorem disconnect_idempotent_witness :
    is_connected (disconnect sOpen).1 = false ∧
    (disconnect sOpen).2 = [Event.linkClose 5] ∧
    disconnect (disconnect sOpen).1 = ((disconnect sOpen).1, ([] : List Event)) := by
  have h := disconnect_idempotent sOpen
  exact ⟨h.1, h.2.2.2.2.2 5 rfl, h.2.1⟩

/-- Claim C9: a device is yielded by `scan` exactly when it was observed
during the window and one of its advertisement entries is a name field
(ad type 9) whose value ends with the product marker `;eTRV`; yielded
devices are the observed entries themselves, signal strength included, and
no other device is yielded. -/
theorem scan_filter_membership (devices : List ScanEntry) (dev : ScanEntry) :
    dev ∈ scan devices ↔
      dev ∈ devices ∧
        ∃ e ∈ dev.scanData, e.adtype = 9 ∧ pyEndsWith e.value (";eTRV") = true := by
  unfold scan
  rw [List.mem_flatMap]
  constructor
  · rintro ⟨d, hd, hy⟩
    rcases mem_scanYields.mp hy with ⟨rfl, e, he, hm⟩
    simp only [matchesMarker, Bool.and_eq_true, beq_iff_eq] at hm
    exact ⟨hd, e, he, hm.1, hm.2⟩
  · rintro ⟨hd, e, he, h9, hend⟩
    refine ⟨dev, hd, mem_scanYields.mpr ⟨rfl, e, he, ?_⟩⟩
    simp [matchesMarker, h9, hend]

/-- Witness for C9: in a window containing one eTRV advertisement and one
unrelated device, the eTRV device is yielded and the other is not. -/
theorem scan_filter_membership_witness :
    devA ∈ scan [devA, devB] ∧ devB ∉ scan [devA, devB] := by
  constructor
  · refine (scan_filter_membership [devA, devB] devA).mpr
      ⟨by simp, ⟨{ adtype := 9, desc := "Complete Local Name", value := "0;0.48;eTRV" },
        by simp [devA], rfl, by decide⟩⟩
  · intro h
    rcases ((scan_filter_membership [devA, devB] devB).mp h).2 with ⟨e, he, h9, hend⟩
    simp only [devB, List.mem_cons, List.mem_singleton, List.not_mem_nil, or_false] at he
    rcases he with he | he
    · rw [he] at h9
      exact absurd h9 (by decide)
    · rw [he] at hend
      exact absurd hend (by decide)

/-- Claim C10 counterexample: a device constructed with a caller-supplied
three-byte PIN holds a PIN that is not 4 bytes — the constructor accepts it
verbatim, so the 4-byte PIN invariant fails as stated. -/
theorem pin_invariant_counterexample :
    ¬ ((init ("00:04:2f:06:24:d1") none (some [49, 50, 51])).pin.length = 4) := by
  decide

/-- Claim C10 (amended): the default PIN — used when the caller supplies
none — is exactly the 4 bytes `b'0000'`; a caller-supplied PIN is stored
verbatim with no length validation, and `send_pin` writes the stored PIN as
is to the PIN slot. -/
theorem pin_default_four_bytes_caller_pin_verbatim (address : String)
    (secret : Option (List Nat)) :
    (init address secret none).pin = [48, 48, 48, 48] ∧
    (init address secret none).pin.length = 4 ∧
    (∀ p, (init address secret (some p)).pin = p) ∧
    (∀ s : DeviceState, send_pin s = Event.pinWrite PIN_W s.pin) :=
  ⟨rfl, rfl, fun _ => rfl, fun _ => rfl⟩

end LibEtrv
